import Mathlib

/-!
Shallow embedding of the core of the `asgi_tools` package
(`asgi_tools/request.py`, `asgi_tools/middleware.py`, `asgi_tools/utils.py`)
together with proofs of properties of that code.

Python dictionaries are modelled as association lists with insertion-order
update semantics, byte strings as `List Nat`, async functions as explicit
state passing, and raised exceptions as `Option`/`Except` results.
-/

set_option autoImplicit false

namespace AsgiTools

/-! ## Python primitives shared by several translated functions -/

/-- Python whitespace characters recognised by `str.strip()` and the regex
class `\s` on ASCII input: space, tab, newline, carriage return, vertical
tab and form feed. -/
def isPySpace (c : Char) : Bool :=
  c = ' ' || c = '\t' || c = '\n' || c = '\r' || c = Char.ofNat 11 || c = Char.ofNat 12

/-- Python `str.strip()` with no argument: drop leading and trailing
whitespace characters. -/
def pyStrip (s : String) : String :=
  String.mk ((s.data.dropWhile isPySpace).reverse.dropWhile isPySpace).reverse

/-- Python `str.strip(chars)`: drop leading and trailing characters that
belong to `chars`. -/
def pyStripChars (chars : List Char) (s : String) : String :=
  String.mk ((s.data.dropWhile (chars.contains ·)).reverse.dropWhile (chars.contains ·)).reverse

/-- Python `str.partition(sep)` for a one-character separator, returning the
part before the first occurrence and the part after it; when the separator
does not occur the whole string is the first component and the second is
empty, exactly as Python returns `(s, "", "")`. -/
def pyPartition (s : String) (sep : Char) : String × String :=
  let pre := s.data.takeWhile (· ≠ sep)
  let rest := s.data.dropWhile (· ≠ sep)
  match rest with
  | [] => (String.mk pre, "")
  | _ :: after => (String.mk pre, String.mk after)

/-- Scan left to right replacing every non-overlapping occurrence of `old`
(nonempty) by `new`; the fuel only serves termination, any amount at least
the input length suffices. -/
def pyReplaceAux (old new : List Char) : Nat → List Char → List Char
  | _, [] => []
  | 0, s => s
  | fuel + 1, c :: rest =>
    if old.isPrefixOf (c :: rest) then
      new ++ pyReplaceAux old new fuel ((c :: rest).drop old.length)
    else
      c :: pyReplaceAux old new fuel rest

/-- Python `str.replace(old, new)` for a nonempty `old`: replace every
non-overlapping occurrence left to right. -/
def pyReplace (s old new : String) : String :=
  if old.data = [] then s
  else String.mk (pyReplaceAux old.data new.data s.data.length s.data)

/-- Python `str.split(sep)` for a one-character separator: `''` splits to
`['']`, and every separator occurrence starts a new field. -/
def pySplitChar (sep : Char) : List Char → List (List Char)
  | [] => [[]]
  | c :: rest =>
    if c = sep then [] :: pySplitChar sep rest
    else
      match pySplitChar sep rest with
      | g :: gs => (c :: g) :: gs
      | [] => [[c]]

/-- Lower-case an ASCII character, the case folding header-name comparison
uses. -/
def asciiLowerChar (c : Char) : Char :=
  if 'A' ≤ c ∧ c ≤ 'Z' then Char.ofNat (c.toNat + 32) else c

/-- Lower-case a header name for case-insensitive comparison. -/
def asciiLower (s : String) : String :=
  String.mk (s.data.map asciiLowerChar)

/-- Decode a byte string with the latin-1 codec: every byte maps to the
code point of the same value. -/
def latin1Decode (bs : List Nat) : String :=
  String.mk (bs.map (fun b => Char.ofNat b))

/-- Lookup in a `CIMultiDict` built from decoded header pairs: case
insensitive on the key, returning the first matching value
(`multidict.CIMultiDict.get`). -/
def headersGet (headers : List (String × String)) (key : String) : Option String :=
  (headers.find? (fun p => asciiLower p.1 = asciiLower key)).map (fun p => p.2)

/-- Python `dict` read with a default: `d.get(k, dflt)`. -/
def dictGetD (d : List (String × String)) (k dflt : String) : String :=
  ((d.find? (fun p => p.1 = k)).map (fun p => p.2)).getD dflt

/-- Python `dict` write `d[k] = v`: overwrite the entry in place when the
key is present, otherwise append, preserving insertion order. -/
def dictSet (d : List (String × String)) (k v : String) : List (String × String) :=
  match d with
  | [] => [(k, v)]
  | (k0, v0) :: rest =>
    if k0 = k then (k0, v) :: rest else (k0, v0) :: dictSet rest k v

/-! ## `middleware.py`: `BaseMiddeware.__call__` (C7)

A middleware stage holds a declared interest set `scopes` of connection
type tags.  `__call__` runs `__process__` when `scope['type']` is in the
set and otherwise forwards `(scope, *args)` to the inner app unchanged. -/

/-- An ASGI connection scope as seen by `BaseMiddeware.__call__`: the
`type` tag that is inspected, plus the rest of the mapping, held abstract. -/
structure MwScope (σ : Type) where
  type : String
  payload : σ

/-- Translation of `BaseMiddeware.__call__`: dispatch on membership of the
scope's type tag in the stage's interest set.  `args` stands for the
`*args, **kwargs` tuple (`receive`, `send`) forwarded verbatim. -/
def baseMiddlewareCall {σ α β : Type} (scopes : List String)
    (process app : MwScope σ → α → β) (scope : MwScope σ) (args : α) : β :=
  if scope.type ∈ scopes then process scope args else app scope args

/-! ## `middleware.py`: `RouterMiddleware.route` registration (C8)

`route(...)(cb)` raises `ValueError` when `cb` is not a coroutine function
and otherwise registers the callback with the router's route table. -/

/-- A route callback as `inspect.iscoroutinefunction` sees it: an identity
plus whether it is a coroutine function. -/
structure Callback where
  id : Nat
  isCoroutineFunction : Bool
deriving DecidableEq, Repr

/-- One entry of the router's route table. -/
structure RouteEntry where
  pattern : String
  cb : Callback
deriving DecidableEq, Repr

/-- Translation of the closure inside `RouterMiddleware.route`: reject a
non-coroutine callback with `ValueError` at registration time, otherwise
extend the route table (`self.router.route(*args)(cb)`). -/
def routeRegister (table : List RouteEntry) (pat : String) (cb : Callback) :
    Except String (List RouteEntry) :=
  if ¬cb.isCoroutineFunction then
    Except.error "Router callback has to be awaitable."
  else
    Except.ok (table ++ [⟨pat, cb⟩])

/-! ## `middleware.py`: `RouterMiddleware.__dispatch__` (C5)

The `http_router.Router` collaborator is modelled as a route table looked
up by exact path and method; a miss is its `NotFound` exception, modelled
as `none`.  `__dispatch__` catches `NotFound` and falls back to
`(self.app, {})`. -/

/-- One entry of the dispatch table of the external `http_router.Router`
collaborator: a path, a method and a handler identity. -/
structure DispatchRoute where
  path : String
  method : String
  handler : Nat
deriving DecidableEq, Repr

/-- Model of calling the external `http_router.Router`: return the first
route matching the given path and method together with its extracted
parameters, or `none` for the router's `NotFound` exception. -/
def routerLookup (routes : List DispatchRoute) (path method : String) :
    Option (Nat × List (String × String)) :=
  (routes.find? (fun r => r.path = path ∧ r.method = method)).map
    (fun r => (r.handler, []))

/-- Translation of `RouterMiddleware.__dispatch__`: look up
`scope.get("root_path", "") + scope["path"]` and `scope['method']`, and on
`NotFound` return the configured default app with empty parameters. -/
def routerDispatch (routes : List DispatchRoute) (app : Nat)
    (rootPath path method : String) : Nat × List (String × String) :=
  match routerLookup routes (rootPath ++ path) method with
  | some res => res
  | none => (app, [])

/-! ## `middleware.py`: `LifespanMiddleware.__process__` (C3, C10)

The receive loop reads messages forever; a `lifespan.startup` message runs
every startup callback in order and sends one completion acknowledgment, a
`lifespan.shutdown` message runs the shutdown callbacks, sends one
acknowledgment and returns; any other message is ignored.  A callback is a
zero-argument coroutine that either completes or raises, modelled by its
`ok` flag; an exception is not caught, so it aborts the loop. -/

/-- A registered lifespan callback: an identity and whether awaiting it
completes (`ok = true`) or raises. -/
structure LifespanCallback where
  id : Nat
  ok : Bool
deriving DecidableEq, Repr

/-- One observable event of a lifespan run: a callback starting to run, or
one of the two acknowledgment messages passed to `send`. -/
inductive LifespanItem where
  | run (id : Nat)
  | sentStartupComplete
  | sentShutdownComplete
deriving DecidableEq, Repr

/-- How the `__process__` loop ended: `finished` after sending the shutdown
acknowledgment, `raised` when a callback's exception propagated, `pending`
when the modelled message sequence ran out while the loop would still be
awaiting `receive()`. -/
inductive LifespanResult where
  | finished
  | raised
  | pending
deriving DecidableEq, Repr

/-- Run a callback list in registration order, fail-fast: translation of
`__startup__`/`__shutdown__` (`for fn in container: await fn()`).  Returns
the trace of callbacks that ran (the raising one included) and whether all
completed. -/
def runCallbacks : List LifespanCallback → List LifespanItem × Bool
  | [] => ([], true)
  | c :: cs =>
    if c.ok then
      let (tr, b) := runCallbacks cs
      (LifespanItem.run c.id :: tr, b)
    else
      ([LifespanItem.run c.id], false)

/-- Translation of `LifespanMiddleware.__process__` applied to a finite
sequence of received message type tags, producing the trace of callback
runs and sent acknowledgments and how the loop ended. -/
def lifespanProcess (msgs : List String)
    (startup shutdown : List LifespanCallback) : List LifespanItem × LifespanResult :=
  match msgs with
  | [] => ([], LifespanResult.pending)
  | m :: rest =>
    if m = "lifespan.startup" then
      let (tr, b) := runCallbacks startup
      if b then
        let (tr2, r) := lifespanProcess rest startup shutdown
        (tr ++ LifespanItem.sentStartupComplete :: tr2, r)
      else
        (tr, LifespanResult.raised)
    else if m = "lifespan.shutdown" then
      let (tr, b) := runCallbacks shutdown
      if b then
        (tr ++ [LifespanItem.sentShutdownComplete], LifespanResult.finished)
      else
        (tr, LifespanResult.raised)
    else
      lifespanProcess rest startup shutdown

/-! ## `request.py`: `Request.stream` / `Request.body` (C2)

`stream` pulls one message from `receive`, yields `message.get('body',
b'')`, and keeps pulling while `message.get('more_body')` is truthy.
`body` drains the stream into `self._body` on first call and afterwards
returns the cached bytes.  The pending messages the transport will deliver
are modelled as a list; `receive()` on an exhausted list would suspend
forever, modelled as `none`. -/

/-- One ASGI `http.request` message as `Request.stream` reads it: the
`body` bytes (default `b''`) and the `more_body` flag (default falsy). -/
structure StreamMessage where
  body : List Nat := []
  more_body : Bool := false
deriving DecidableEq, Repr

/-- Translation of `Request.stream`: receive one message, then keep
receiving while `more_body` is set.  Returns the yielded chunks in arrival
order, the undelivered messages, and the number of `receive()` calls; an
exhausted transport (`receive` would block forever) is `none`. -/
def streamAll : List StreamMessage → Option (List (List Nat) × List StreamMessage × Nat)
  | [] => none
  | m :: rest =>
    if m.more_body then
      (streamAll rest).map (fun r => (m.body :: r.1, r.2.1, r.2.2 + 1))
    else
      some ([m.body], rest, 1)

/-- The mutable state of one `Request` facade that `body` touches: the
messages the transport still holds and the `self._body` cache
(`None` initially). -/
structure BodyState where
  msgs : List StreamMessage
  bodyCache : Option (List Nat)
deriving DecidableEq, Repr

/-- Translation of `Request.body`: return the cache when `self._body` is
not `None`, otherwise drain `self.stream()` into a list of chunks, join
them and cache the result.  The `Nat` is the number of `receive()` calls
this invocation performed. -/
def bodyCall (s : BodyState) : Option (List Nat × BodyState × Nat) :=
  match s.bodyCache with
  | some b => some (b, s, 0)
  | none =>
    (streamAll s.msgs).map
      (fun r => (r.1.flatten, ⟨r.2.1, some r.1.flatten⟩, r.2.2))

/-- Call `Request.body` `n` times in sequence, collecting every returned
byte string and the total number of `receive()` calls. -/
def bodyCalls : Nat → BodyState → Option (List (List Nat) × BodyState × Nat)
  | 0, s => some ([], s, 0)
  | n + 1, s =>
    (bodyCall s).bind (fun r =>
      (bodyCalls n r.2.1).map (fun r2 => (r.1 :: r2.1, r2.2.1, r.2.2 + r2.2.2)))

/-! ## `request.py`: `process_decode`, `Request.text`, `Request.json` (C1)

`process_decode(meta=..., message=...)` wraps a decode method: with no
`meta` key the method always runs; with a `meta` key the result is cached
in `self.meta` under that key.  `text` is wrapped WITHOUT a meta key and
decodes `await self.body()` with the resolved charset; `json` is wrapped
with `meta='json'` and parses `await self.text()` with `json.loads`.  The
charset decode (`bytes.decode`) and `json.loads` are external collaborators
passed in as functions returning `none` on `LookupError`/`ValueError`. -/

/-- The facade state touched by `text` and `json`: the body-stream state,
the `self.meta['json']` cache slot, and instrumentation counting charset
decodes, `json.loads` calls and `receive()` calls. -/
structure DecodeState where
  bodySt : BodyState
  metaJson : Option String
  nDecode : Nat
  nLoads : Nat
  nReceive : Nat
deriving Repr

/-- Translation of `Request.text` under its `process_decode` wrapper: the
wrapper has no `meta` key, so every call runs the method body, which reads
`await self.body()` and decodes it with the charset.  `decodeFn body
charset` is the external `bytes.decode`; `none` models the raised
`ASGIDecodeError('Invalid Encoding')` (and a blocked stream). -/
def textCall (decodeFn : List Nat → String → Option String) (charset : String)
    (s : DecodeState) : Option (String × DecodeState) :=
  (bodyCall s.bodySt).bind (fun r =>
    match decodeFn r.1 charset with
    | some t =>
      some (t, { s with bodySt := r.2.1, nDecode := s.nDecode + 1,
                        nReceive := s.nReceive + r.2.2 })
    | none => none)

/-- Translation of `Request.json` under its `process_decode` wrapper with
`meta='json'`: return the cached value when `'json'` is already a key of
`self.meta`, otherwise run the method body (`loads(await self.text())`)
and cache its result.  `loadsFn` is the external `json.loads`; `none`
models the raised `ASGIDecodeError('Invalid JSON')`. -/
def jsonCall (decodeFn : List Nat → String → Option String)
    (loadsFn : String → Option String) (charset : String)
    (s : DecodeState) : Option (String × DecodeState) :=
  match s.metaJson with
  | some v => some (v, s)
  | none =>
    (textCall decodeFn charset s).bind (fun r =>
      match loadsFn r.1 with
      | some v =>
        some (v, { r.2 with metaJson := some v, nLoads := r.2.nLoads + 1 })
      | none => none)

/-- The access sequence of claim C1: `json()`, then `text()`, then `json()`
again on the same facade instance, returning the three results and the
final state. -/
def jsonTextJson (decodeFn : List Nat → String → Option String)
    (loadsFn : String → Option String) (charset : String)
    (s0 : DecodeState) : Option (String × String × String × DecodeState) :=
  (jsonCall decodeFn loadsFn charset s0).bind (fun r1 =>
    (textCall decodeFn charset r1.2).bind (fun r2 =>
      (jsonCall decodeFn loadsFn charset r2.2).map (fun r3 =>
        (r1.1, r2.1, r3.1, r3.2))))

/-- The initial state of a fresh `Request` facade whose transport holds
`msgs`: empty caches, zero counters. -/
def freshDecodeState (msgs : List StreamMessage) : DecodeState :=
  ⟨⟨msgs, none⟩, none, 0, 0, 0⟩

/-! ## `request.py`: `Request.url` (C4)

`url` reads `(host, port)` from `scope.get('server')`, lets a nonempty
`host` header override the host, strips everything from the first `:` of
the resulting host string, and builds the URL from the scheme (default
`http`), that host, the UNCHANGED transport port, `root_path + path` and
the latin-1-decoded query string. -/

/-- The scope fields `Request.url` reads.  `server` is the ASGI server
pair, whose host may itself be `None`; `path` is a required scope key, the
others have the defaults `url` passes to `.get`. -/
structure UrlScope where
  server : Option (Option String × Option Nat) := none
  scheme : Option String := none
  root_path : Option String := none
  path : String
  query_string : Option (List Nat) := none

/-- The components `yarl.URL.build` is called with. -/
structure UrlParts where
  scheme : String
  host : String
  port : Option Nat
  path : String
  query : String
deriving DecidableEq, Repr

/-- Translation of `Request.url`: `none` models the `AttributeError`
raised by `host.partition(':')` when both the host header and the
transport host are missing (or the header is falsy and the transport gives
none). -/
def requestUrl (scope : UrlScope) (headers : List (String × String)) : Option UrlParts :=
  let hp := scope.server.getD (none, none)
  let host0 : Option String :=
    match headersGet headers "host" with
    | some h => if h = "" then hp.1 else some h
    | none => hp.1
  match host0 with
  | none => none
  | some h =>
    some { scheme := scope.scheme.getD "http"
           host := (pyPartition h ':').1
           port := hp.2
           path := (scope.root_path.getD "") ++ scope.path
           query := latin1Decode (scope.query_string.getD []) }

/-! ## `request.py`: `Request.cookies` (C9)

`cookies` splits `self.headers.get('cookie', '')` on `;`, partitions each
chunk at its first `=`, strips whitespace from key and value, unquotes the
value with `http.cookies._unquote`, and stores the pair in a dict. -/

/-- The escape-resolving loop of `http.cookies._unquote`, applied to the
characters between the surrounding quotes: a backslash followed by three
octal digits (first at most 3) becomes that code point, a backslash
followed by any character but a newline becomes that character, and
anything else is copied. -/
def unquoteLoop : List Char → List Char
  | [] => []
  | '\\' :: a :: b :: c :: rest2 =>
    if '0' ≤ a ∧ a ≤ '3' ∧ '0' ≤ b ∧ b ≤ '7' ∧ '0' ≤ c ∧ c ≤ '7' then
      Char.ofNat ((a.toNat - 48) * 64 + (b.toNat - 48) * 8 + (c.toNat - 48))
        :: unquoteLoop rest2
    else if a ≠ '\n' then a :: unquoteLoop (b :: c :: rest2)
    else '\\' :: unquoteLoop (a :: b :: c :: rest2)
  | '\\' :: a :: rest2 =>
    if a ≠ '\n' then a :: unquoteLoop rest2 else '\\' :: unquoteLoop (a :: rest2)
  | ['\\'] => ['\\']
  | c :: rest => c :: unquoteLoop rest
termination_by l => l.length
decreasing_by all_goals simp_arith

/-- Translation of `http.cookies._unquote`: strings shorter than two
characters or not surrounded by double quotes are returned as is;
otherwise the quotes are dropped and escapes are resolved. -/
def cookieUnquote (s : String) : String :=
  if s.data.length < 2 then s
  else if ¬(s.data.head? = some '"' ∧ s.data.getLast? = some '"') then s
  else String.mk (unquoteLoop (s.data.drop 1).dropLast)

/-- Translation of `Request.cookies`: split the raw cookie header (default
`''`) on `;`, partition each chunk at the first `=`, strip both sides and
unquote the value, inserting into a dict. -/
def requestCookies (headers : List (String × String)) : List (String × String) :=
  let raw := (headersGet headers "cookie").getD ""
  (pySplitChar ';' raw.data).foldl
    (fun data chunk =>
      let kv := pyPartition (String.mk chunk) '='
      dictSet data (pyStrip kv.1) (cookieUnquote (pyStrip kv.2)))
    []

/-! ## `utils.py`: `OPTION_HEADER_PIECE_RE` and `parse_options_header` (C6)

The regex is translated piecewise.  Its tail after the key group consists
only of nullable parts (`(?:...)?`, `\s*`, `;?`), so a successful greedy
sub-match is never revisited; the only alternations are quoted-string
versus token (tried in that order) and the lazy `encoding'language'`
scan, implemented by trying delimiters left to right. -/

/-- The apostrophe character, the delimiter of the RFC 2231 extended
notation `charset'language'value`. -/
def apos : Char := Char.ofNat 39

/-- Character class `[^\s;,=*]` of the key token. -/
def isKeyTokenChar (c : Char) : Bool :=
  !(isPySpace c || c = ';' || c = ',' || c = '=' || c = '*')

/-- Character class `[^;,]` of the value token. -/
def isValueTokenChar (c : Char) : Bool :=
  !(c = ';' || c = ',')

/-- Match the remainder of a quoted string `[^"\\]*(?:\\.[^"\\]*)*"` after
its opening quote, with fuel for the escape loop (any fuel at least the
input length suffices).  Returns the consumed text including the closing
quote, and the rest; `.` in the regex does not match a newline. -/
def quotedTail : Nat → List Char → Option (List Char × List Char)
  | 0, _ => none
  | fuel + 1, s =>
    let a := s.takeWhile (fun c => !(c = '"' || c = '\\'))
    match s.dropWhile (fun c => !(c = '"' || c = '\\')) with
    | '"' :: rest => some (a ++ ['"'], rest)
    | '\\' :: d :: rest =>
      if d = '\n' then none
      else (quotedTail fuel rest).map (fun p => (a ++ '\\' :: d :: p.1, p.2))
    | _ => none

/-- Match the key group: a quoted string, else a nonempty key token. -/
def parseKey (s : List Char) : Option (List Char × List Char) :=
  let token :=
    let t := s.takeWhile isKeyTokenChar
    if t = [] then none else some (t, s.dropWhile isKeyTokenChar)
  match s with
  | '"' :: r =>
    match quotedTail (r.length + 1) r with
    | some (body, rest) => some ('"' :: body, rest)
    | none => token
  | _ => token

/-- Match the optional continuation index `(?:\*(?P<count>\d+))?`. -/
def parseCount (s : List Char) : Option String × List Char :=
  match s with
  | '*' :: r =>
    let d := r.takeWhile (fun c => c.isDigit)
    if d = [] then (none, s)
    else (some (String.mk d), r.dropWhile (fun c => c.isDigit))
  | _ => (none, s)

/-- Match the lazy language part `[^\s]*?'`: the shortest prefix of
non-space characters up to the first apostrophe. -/
def findLang : List Char → Option (List Char × List Char)
  | [] => none
  | c :: r =>
    if c = apos then some ([], r)
    else if isPySpace c then none
    else (findLang r).map (fun p => (c :: p.1, p.2))

/-- Match the lazy extended-notation group
`(?P<encoding>[^\s]+?)'(?P<language>[^\s]*?)'`: delimiting apostrophes are
tried left to right, the shortest (nonempty) encoding that lets the
language part close winning, exactly as the lazy quantifiers backtrack. -/
def findEncLoop (acc : List Char) : List Char → Option (List Char × List Char × List Char)
  | [] => none
  | c :: r =>
    if isPySpace c then none
    else if c = apos ∧ acc ≠ [] then
      match findLang r with
      | some p => some (acc.reverse, p.1, p.2)
      | none => findEncLoop (c :: acc) r
    else findEncLoop (c :: acc) r

/-- Match the value group `(?P<value>"..."|[^;,]+)?`: a quoted string,
else a nonempty value token. -/
def parseValue (s : List Char) : Option (List Char × List Char) :=
  let token :=
    let t := s.takeWhile isValueTokenChar
    if t = [] then none else some (t, s.dropWhile isValueTokenChar)
  match s with
  | '"' :: r =>
    match quotedTail (r.length + 1) r with
    | some (body, rest) => some ('"' :: body, rest)
    | none => token
  | _ => token

/-- Match the equals part `(?:\*\s*=\s*(?:enc'lang')?|=\s*)`: extended
notation with its optional encoding declaration, or a plain equals sign;
`none` means the optional group matches empty. -/
def parseEqSign (s : List Char) : Option (Option String × Option String × List Char) :=
  let basic : Option (Option String × Option String × List Char) :=
    match s with
    | '=' :: r => some (none, none, r.dropWhile isPySpace)
    | _ => none
  match s with
  | '*' :: r =>
    match r.dropWhile isPySpace with
    | '=' :: r2 =>
      let r3 := r2.dropWhile isPySpace
      match findEncLoop [] r3 with
      | some (enc, lang, rest) => some (some (String.mk enc), some (String.mk lang), rest)
      | none => some (none, none, r3)
    | _ => basic
  | _ => basic

/-- The captured groups of one `OPTION_HEADER_PIECE_RE` match, in the
order `match.groups()` returns them. -/
structure PieceGroups where
  key : String
  count : Option String
  encoding : Option String
  language : Option String
  value : Option String
deriving DecidableEq, Repr

/-- Translation of `OPTION_HEADER_PIECE_RE.match`: the groups of the match
anchored at the start of the input and the text after `match.end()`, or
`none` when the regex does not match. -/
def matchPiece (s : List Char) : Option (PieceGroups × List Char) :=
  let s1 := s.dropWhile isPySpace
  let s2 := match s1 with
            | ',' :: r => r.dropWhile isPySpace
            | _ => s1
  match parseKey s2 with
  | none => none
  | some (key, s3) =>
    let cp := parseCount s3
    let s5 := cp.2.dropWhile isPySpace
    let ev : Option String × Option String × Option String × List Char :=
      match parseEqSign s5 with
      | none => (none, none, none, s5)
      | some (enc, lang, s6) =>
        match parseValue s6 with
        | some (v, s7) => (enc, lang, some (String.mk v), s7)
        | none => (enc, lang, none, s6)
    let s8 := ev.2.2.2.dropWhile isPySpace
    let s9 := match s8 with
              | ';' :: r => r
              | _ => s8
    some (⟨String.mk key, cp.1, ev.1, ev.2.1, ev.2.2.1⟩, s9)

/-- The body of the `while rest:` loop of `parse_options_header`, with
fuel (any fuel at least the input length suffices, every successful match
consuming at least the key character).  `extDecode v enc` is the external
`unquote_to_bytes(v).decode(enc)` of the extended notation, `none` being a
raised decode error; a match whose value group is empty makes
`value.strip` raise `AttributeError`, modelled as `none`. -/
def parseOptionsLoop (extDecode : String → String → Option String) :
    Nat → List Char → List (String × String) → Option (List (String × String))
  | _, [], options => some options
  | 0, _ :: _, _ => none
  | fuel + 1, rest, options =>
    match matchPiece rest with
    | none => some options
    | some (g, rest2) =>
      match g.value with
      | none => none
      | some v0 =>
        match (match g.encoding with
               | some enc => extDecode v0 enc
               | none => some v0) with
        | none => none
        | some v1 =>
          let v2 := match g.count with
                    | some c => if c ≠ "" then dictGetD options g.key "" ++ v1 else v1
                    | none => v1
          let v3 := pyReplace (pyReplace (pyStripChars ['"', ' '] v2) "\\\\" "\\") "\\\"" "\""
          parseOptionsLoop extDecode fuel rest2 (dictSet options g.key v3)

/-- Translation of `parse_options_header`: empty and parameterless headers
return early; otherwise the header is split at the first `;` and the
remainder is matched piece by piece. -/
def parse_options_header (extDecode : String → String → Option String)
    (value : String) : Option (String × List (String × String)) :=
  if value = "" then some ("", [])
  else if ¬value.data.contains ';' then some (value, [])
  else
    let parts := pyPartition value ';'
    (parseOptionsLoop extDecode parts.2.data.length parts.2.data []).map
      (fun options => (parts.1, options))

/-! ## Helper lemmas -/

/-- A `bodyCall` on a facade whose `_body` cache is filled returns the
cached bytes, leaves the state untouched and performs no `receive()`. -/
theorem bodyCalls_cached (m : Nat) (msgs : List StreamMessage) (b : List Nat) :
    bodyCalls m ⟨msgs, some b⟩ = some (List.replicate m b, ⟨msgs, some b⟩, 0) := by
  induction m with
  | zero => rfl
  | succ n ih => simp [bodyCalls, bodyCall, ih, List.replicate_succ]

/-- Running a list of callbacks that all complete produces exactly the
registration-order trace and reports success. -/
theorem runCallbacks_ok (cbs : List LifespanCallback) (h : ∀ c ∈ cbs, c.ok = true) :
    runCallbacks cbs = (cbs.map (fun c => LifespanItem.run c.id), true) := by
  induction cbs with
  | nil => rfl
  | cons c cs ih =>
    have hc : c.ok = true := h c (by simp)
    simp [runCallbacks, hc, ih (fun x hx => h x (by simp [hx]))]

/-- Running a callback list whose first failure is `bad` runs the prefix
and `bad` only, and reports the failure. -/
theorem runCallbacks_fail (pre : List LifespanCallback) (bad : LifespanCallback)
    (post : List LifespanCallback) (hp : ∀ c ∈ pre, c.ok = true) (hb : bad.ok = false) :
    runCallbacks (pre ++ bad :: post)
      = (pre.map (fun c => LifespanItem.run c.id) ++ [LifespanItem.run bad.id], false) := by
  induction pre with
  | nil => simp [runCallbacks, hb]
  | cons c cs ih =>
    have hc : c.ok = true := hp c (by simp)
    simp [runCallbacks, hc, ih (fun x hx => hp x (by simp [hx]))]

/-! ## Claim theorems -/

/-- Claim C7: a middleware stage whose declared interest set does not
contain the connection's type tag is, for every possible processing logic
`process` and inner handler `app`, extensionally equal to the inner
handler applied to the identical scope and arguments: the call is
forwarded unmodified and the stage's own logic never runs. -/
theorem claimC7_passthrough {σ α β : Type} (scopes : List String)
    (process app : MwScope σ → α → β) (scope : MwScope σ) (args : α)
    (h : scope.type ∉ scopes) :
    baseMiddlewareCall scopes process app scope args = app scope args := by
  unfold baseMiddlewareCall
  rw [if_neg h]

/-- Witness for C7: a stage interested only in `lifespan` scopes forwards
an `http` connection straight to its inner handler. -/
theorem claimC7_passthrough_witness :
    baseMiddlewareCall ["lifespan"] (fun (_ : MwScope Unit) (_ : Nat) => 0)
      (fun _ n => n + 1) ⟨"http", ()⟩ 41 = 42 :=
  @claimC7_passthrough Unit Nat Nat ["lifespan"] (fun _ _ => 0) (fun _ n => n + 1)
    ⟨"http", ()⟩ 41 (by decide)

/-- Claim C8: registering a callback that is not a coroutine function
raises `ValueError` at registration time, while registering a coroutine
function succeeds and appends the route to the table. -/
theorem claimC8_registration (table : List RouteEntry) (pat : String) (cb : Callback) :
    (cb.isCoroutineFunction = false →
      routeRegister table pat cb = Except.error "Router callback has to be awaitable.")
    ∧ (cb.isCoroutineFunction = true →
      routeRegister table pat cb = Except.ok (table ++ [⟨pat, cb⟩])) := by
  constructor
  · intro h
    simp [routeRegister, h]
  · intro h
    simp [routeRegister, h]

/-- Witness for C8: a plain function is rejected with `ValueError` and a
coroutine function extends the route table. -/
theorem claimC8_registration_witness :
    routeRegister [] "/users" ⟨1, false⟩
        = Except.error "Router callback has to be awaitable."
    ∧ routeRegister [] "/users" ⟨2, true⟩ = Except.ok [⟨"/users", ⟨2, true⟩⟩] :=
  ⟨(claimC8_registration [] "/users" ⟨1, false⟩).1 rfl,
   (claimC8_registration [] "/users" ⟨2, true⟩).2 rfl⟩

/-- Claim C5: when no route of the table matches the requested path and
method, `__dispatch__` does not propagate the router's `NotFound`; it
returns the configured default app paired with an empty parameter
mapping. -/
theorem claimC5_not_found_fallback (routes : List DispatchRoute) (app : Nat)
    (rootPath path method : String)
    (h : ∀ r ∈ routes, ¬(r.path = rootPath ++ path ∧ r.method = method)) :
    routerDispatch routes app rootPath path method = (app, []) := by
  unfold routerDispatch routerLookup
  rw [List.find?_eq_none.mpr]
  · rfl
  · intro r hr
    simpa using h r hr

/-- Witness for C5: a table holding only `GET /a` dispatched at
`POST /b` falls back to the default app with empty parameters. -/
theorem claimC5_not_found_fallback_witness :
    routerDispatch [⟨"/a", "GET", 7⟩] 99 "" "/b" "POST" = (99, []) :=
  claimC5_not_found_fallback [⟨"/a", "GET", 7⟩] 99 "" "/b" "POST" (by decide)

/-- Claim C9: a facade whose headers contain no cookie entry does not get
an empty cookie mapping; the empty fallback string is still split and
inserted, producing the singleton mapping from the empty string to the
empty string. -/
theorem claimC9_empty_cookie_header (headers : List (String × String))
    (h : ∀ p ∈ headers, asciiLower p.1 ≠ "cookie") :
    requestCookies headers = [("", "")] := by
  have hget : headersGet headers "cookie" = none := by
    unfold headersGet
    rw [List.find?_eq_none.mpr]
    · rfl
    · intro p hp
      simpa using h p hp
  simp only [requestCookies, hget]
  rfl

/-- Witness for C9: a request with only a content-type header still maps
the empty cookie name to the empty value. -/
theorem claimC9_empty_cookie_header_witness :
    requestCookies [("Content-Type", "text/plain")] = [("", "")] :=
  claimC9_empty_cookie_header [("Content-Type", "text/plain")] (by decide)

/-- Claim C2: on a facade bound to a complete body stream, calling
`body()` any `N ≥ 1` times returns the byte-identical concatenation of
the streamed chunks in arrival order every time, while the stream is
drained exactly once: the total number of `receive()` calls equals that
of the single first drain, whatever `N` is. -/
theorem claimC2_body_idempotent (msgs : List StreamMessage)
    (chunks : List (List Nat)) (rest : List StreamMessage) (k N : Nat)
    (h : streamAll msgs = some (chunks, rest, k)) (hN : 1 ≤ N) :
    bodyCalls N ⟨msgs, none⟩
      = some (List.replicate N chunks.flatten, ⟨rest, some chunks.flatten⟩, k) := by
  obtain ⟨n, rfl⟩ : ∃ n, N = n + 1 := ⟨N - 1, by omega⟩
  simp [bodyCalls, bodyCall, h, bodyCalls_cached, List.replicate_succ]

/-- Witness for C2: a two-chunk stream read three times yields the same
joined bytes three times with exactly the two `receive()` calls of the
first drain. -/
theorem claimC2_body_idempotent_witness :
    bodyCalls 3 ⟨[⟨[1, 2], true⟩, ⟨[3], false⟩], none⟩
      = some ([[1, 2, 3], [1, 2, 3], [1, 2, 3]], ⟨[], some [1, 2, 3]⟩, 2) :=
  claimC2_body_idempotent [⟨[1, 2], true⟩, ⟨[3], false⟩] [[1, 2], [3]] [] 2 3 rfl
    (by decide)

/-- Claim C3: a startup signal followed by a shutdown signal runs all
startup callbacks once each in registration order, emits exactly one
startup acknowledgment, then runs all shutdown callbacks once each in
registration order, emits exactly one shutdown acknowledgment and
terminates the loop (zero callbacks being valid); and a callback raising
during startup prevents all later startup callbacks from running, emits no
acknowledgment and propagates the exception. -/
theorem claimC3_lifespan_cycle (su sd : List LifespanCallback) :
    ((∀ c ∈ su, c.ok = true) → (∀ c ∈ sd, c.ok = true) →
      lifespanProcess ["lifespan.startup", "lifespan.shutdown"] su sd
        = (su.map (fun c => LifespanItem.run c.id)
            ++ LifespanItem.sentStartupComplete
              :: (sd.map (fun c => LifespanItem.run c.id)
                ++ [LifespanItem.sentShutdownComplete]),
           LifespanResult.finished))
    ∧ (∀ pre bad post, (∀ c ∈ pre, c.ok = true) → bad.ok = false →
      lifespanProcess ["lifespan.startup", "lifespan.shutdown"] (pre ++ bad :: post) sd
        = (pre.map (fun c => LifespanItem.run c.id) ++ [LifespanItem.run bad.id],
           LifespanResult.raised)) := by
  constructor
  · intro hsu hsd
    simp [lifespanProcess, runCallbacks_ok su hsu, runCallbacks_ok sd hsd]
  · intro pre bad post hp hb
    simp [lifespanProcess, runCallbacks_fail pre bad post hp hb]

/-- Witness for C3: two startup callbacks and one shutdown callback run in
order with one acknowledgment per phase; zero callbacks still yield both
acknowledgments; and a failing second startup callback stops the third
from running and aborts the loop. -/
theorem claimC3_lifespan_cycle_witness :
    lifespanProcess ["lifespan.startup", "lifespan.shutdown"] [⟨1, true⟩, ⟨2, true⟩]
        [⟨5, true⟩]
      = ([LifespanItem.run 1, LifespanItem.run 2, LifespanItem.sentStartupComplete,
          LifespanItem.run 5, LifespanItem.sentShutdownComplete],
         LifespanResult.finished)
    ∧ lifespanProcess ["lifespan.startup", "lifespan.shutdown"] [] []
      = ([LifespanItem.sentStartupComplete, LifespanItem.sentShutdownComplete],
         LifespanResult.finished)
    ∧ lifespanProcess ["lifespan.startup", "lifespan.shutdown"]
        [⟨1, true⟩, ⟨2, false⟩, ⟨3, true⟩] []
      = ([LifespanItem.run 1, LifespanItem.run 2], LifespanResult.raised) :=
  ⟨(claimC3_lifespan_cycle [⟨1, true⟩, ⟨2, true⟩] [⟨5, true⟩]).1 (by decide) (by decide),
   (claimC3_lifespan_cycle [] []).1 (by decide) (by decide),
   (claimC3_lifespan_cycle [⟨1, true⟩, ⟨2, false⟩, ⟨3, true⟩] []).2 [⟨1, true⟩] ⟨2, false⟩
     [⟨3, true⟩] (by decide) rfl⟩

/-- Claim C10: the lifespan receive loop keeps no started/stopped state:
a message of any other type is silently skipped and the loop continues; a
startup signal — at any point of the message sequence, a repeated one
included — re-runs the full startup callback list and emits another
startup acknowledgment before the loop continues unchanged; and as long as
no shutdown signal arrives the loop never terminates (it stays pending on
`receive()`). -/
theorem claimC10_stateless_loop (su sd : List LifespanCallback)
    (hsu : ∀ c ∈ su, c.ok = true) :
    (∀ t rest, t ≠ "lifespan.startup" → t ≠ "lifespan.shutdown" →
      lifespanProcess (t :: rest) su sd = lifespanProcess rest su sd)
    ∧ (∀ rest,
      lifespanProcess ("lifespan.startup" :: rest) su sd
        = (su.map (fun c => LifespanItem.run c.id)
            ++ LifespanItem.sentStartupComplete :: (lifespanProcess rest su sd).1,
           (lifespanProcess rest su sd).2))
    ∧ (∀ msgs, "lifespan.shutdown" ∉ msgs →
      (lifespanProcess msgs su sd).2 = LifespanResult.pending) := by
  refine ⟨?_, ?_, ?_⟩
  · intro t rest ht1 ht2
    simp [lifespanProcess, ht1, ht2]
  · intro rest
    rcases hp : lifespanProcess rest su sd with ⟨tr2, r⟩
    simp [lifespanProcess, runCallbacks_ok su hsu, hp]
  · intro msgs hmem
    induction msgs with
    | nil => rfl
    | cons m rest ih =>
      have hm : m ≠ "lifespan.shutdown" := fun hc => hmem (by simp [hc])
      have hrest := ih (fun hc => hmem (by simp [hc]))
      by_cases hs : m = "lifespan.startup"
      · rcases hp : lifespanProcess rest su sd with ⟨tr2, r⟩
        rw [hp] at hrest
        simp [lifespanProcess, hs, runCallbacks_ok su hsu, hp, hrest]
      · simp [lifespanProcess, hs, hm, hrest]

/-- Witness for C10: an unknown message type is skipped, a second startup
signal after a completed first re-runs the callback and emits a second
acknowledgment, and a sequence without a shutdown leaves the loop
pending. -/
theorem claimC10_stateless_loop_witness :
    lifespanProcess ["lifespan.weird", "lifespan.startup"] [⟨1, true⟩] []
        = lifespanProcess ["lifespan.startup"] [⟨1, true⟩] []
    ∧ lifespanProcess ["lifespan.startup", "lifespan.startup"] [⟨1, true⟩] []
      = ([LifespanItem.run 1, LifespanItem.sentStartupComplete, LifespanItem.run 1,
          LifespanItem.sentStartupComplete], LifespanResult.pending)
    ∧ (lifespanProcess ["lifespan.startup", "lifespan.startup"] [⟨1, true⟩] []).2
      = LifespanResult.pending :=
  ⟨(claimC10_stateless_loop [⟨1, true⟩] [] (by decide)).1 "lifespan.weird"
      ["lifespan.startup"] (by decide) (by decide),
   (claimC10_stateless_loop [⟨1, true⟩] [] (by decide)).2.1 ["lifespan.startup"],
   (claimC10_stateless_loop [⟨1, true⟩] [] (by decide)).2.2
     ["lifespan.startup", "lifespan.startup"] (by decide)⟩

/-- Claim C1 counterexample: on a facade with a decodable one-chunk body
whose text parses as JSON, the sequence `json()`, `text()`, `json()`
performs two underlying charset decodes, not the single one the claim
states: `text()` has no cache key, so the intervening `text()` call
decodes the (cached) body bytes again. -/
theorem claimC1_counterexample :
    (jsonTextJson (fun _ _ => some "[]") (fun _ => some "parsed") "utf-8"
        (freshDecodeState [⟨[91, 93], false⟩])).map
      (fun r => (r.2.2.2.nDecode, r.2.2.2.nLoads)) = some (2, 1)
    ∧ (2 : Nat) ≠ 1 := ⟨rfl, by decide⟩

/-- Claim C1 amended: on a facade whose body stream completes, decodes
under the charset and parses as JSON, calling `json()` then `text()` then
`json()` drains the receive stream exactly once and performs exactly one
JSON parse — the repeated `json()` is served from the `'json'` meta key —
but exactly two charset decodes, because `text()` is not cached and the
direct `text()` call re-decodes the cached body bytes. -/
theorem claimC1_amended (decodeFn : List Nat → String → Option String)
    (loadsFn : String → Option String) (charset : String)
    (msgs : List StreamMessage) (chunks : List (List Nat))
    (rest : List StreamMessage) (k : Nat) (t j : String)
    (h1 : streamAll msgs = some (chunks, rest, k))
    (h2 : decodeFn chunks.flatten charset = some t)
    (h3 : loadsFn t = some j) :
    jsonTextJson decodeFn loadsFn charset (freshDecodeState msgs)
      = some (j, t, j, ⟨⟨rest, some chunks.flatten⟩, some j, 2, 1, k⟩) := by
  simp [jsonTextJson, jsonCall, textCall, bodyCall, freshDecodeState, h1, h2, h3]

/-- Witness for the amended C1: a concrete facade whose two-byte body
decodes to `[]` and parses; both `json()` results are the cached parse,
the decode counter ends at two, the parse counter at one, and the single
drain performed one `receive()`. -/
theorem claimC1_amended_witness :
    jsonTextJson (fun _ _ => some "[]") (fun _ => some "parsed") "utf-8"
        (freshDecodeState [⟨[91, 93], false⟩])
      = some ("parsed", "[]", "parsed",
          ⟨⟨[], some [91, 93]⟩, some "parsed", 2, 1, 1⟩) :=
  claimC1_amended (fun _ _ => some "[]") (fun _ => some "parsed") "utf-8"
    [⟨[91, 93], false⟩] [[91, 93]] [] 1 "[]" "parsed" rfl rfl rfl

/-- Claim C4 counterexample: with transport server `("internal", 80)` and
host header `example.com:8080`, `url` keeps the transport port 80 — the
header's own port 8080 is stripped and discarded, contradicting the claim
that the header's port is used. -/
theorem claimC4_counterexample :
    (requestUrl ⟨some (some "internal", some 80), none, none, "/", none⟩
        [("Host", "example.com:8080")]).map (fun u => (u.host, u.port))
      = some ("example.com", some 80)
    ∧ (some 80 : Option Nat) ≠ some 8080 := ⟨rfl, by decide⟩

/-- Claim C4 amended: `url` reconstructs the URL from the scheme (default
`http`), the host, the transport-level port, the root path concatenated
with the path, and the latin-1-decoded query bytes; a nonempty host header
overrides the transport host, but anything from the first `:` of the
chosen host string on — the header's own port included — is stripped and
discarded, the port component always being the transport-provided port
(absent when the transport provides none). -/
theorem claimC4_amended (scope : UrlScope) (headers : List (String × String)) :
    (∀ hh, headersGet headers "host" = some hh → hh ≠ "" →
      requestUrl scope headers
        = some ⟨scope.scheme.getD "http", (pyPartition hh ':').1,
            (scope.server.getD (none, none)).2,
            (scope.root_path.getD "") ++ scope.path,
            latin1Decode (scope.query_string.getD [])⟩)
    ∧ (∀ h0 p0, headersGet headers "host" = none →
      scope.server = some (some h0, p0) →
      requestUrl scope headers
        = some ⟨scope.scheme.getD "http", (pyPartition h0 ':').1, p0,
            (scope.root_path.getD "") ++ scope.path,
            latin1Decode (scope.query_string.getD [])⟩) := by
  constructor
  · intro hh hget hne
    simp [requestUrl, hget, hne]
  · intro h0 p0 hget hsrv
    simp [requestUrl, hget, hsrv]

/-- Witness for the amended C4: with a host header carrying a port the
host comes from the header and the port from the transport; without a host
header both come from the transport. -/
theorem claimC4_amended_witness :
    requestUrl ⟨some (some "internal", some 80), some "https", some "/api", "/x",
          some [97, 61, 49]⟩ [("Host", "example.com:8080")]
      = some ⟨"https", "example.com", some 80, "/api/x", "a=1"⟩
    ∧ requestUrl ⟨some (some "internal", some 80), none, none, "/x", none⟩ []
      = some ⟨"http", "internal", some 80, "/x", ""⟩ :=
  ⟨(claimC4_amended ⟨some (some "internal", some 80), some "https", some "/api", "/x",
        some [97, 61, 49]⟩ [("Host", "example.com:8080")]).1 "example.com:8080" rfl
      (by decide),
   (claimC4_amended ⟨some (some "internal", some 80), none, none, "/x", none⟩ []).2
     "internal" (some 80) rfl rfl⟩

/-- Claim C6 counterexample: continuation fragments are concatenated in
order of appearance, not numeric order: a header listing `key*1=bar`
before `key*0=foo` yields `barfoo`, while numeric-order concatenation
would yield `foobar`. -/
theorem claimC6_counterexample :
    parse_options_header (fun _ _ => none) "text/plain; key*1=bar; key*0=foo"
      = some ("text/plain", [("key", "barfoo")])
    ∧ "barfoo" ≠ "foobar" := ⟨rfl, by decide⟩

/-- Claim C6 amended: `parse_options_header` on
`text/plain; charset=utf-8` yields primary `text/plain` with options
`charset ↦ utf-8`; continuation fragments (`key*0`, `key*1`, …) are
concatenated onto the same key in their order of appearance in the header
— which is numeric order when they appear sorted, so `key*0=foo;
key*1=bar` yields `key ↦ foobar` — and a header containing no `;` is
returned as the primary token with an empty options mapping. -/
theorem claimC6_amended :
    (∀ ext, parse_options_header ext "text/plain; charset=utf-8"
        = some ("text/plain", [("charset", "utf-8")]))
    ∧ (∀ ext, parse_options_header ext "text/plain; key*0=foo; key*1=bar"
        = some ("text/plain", [("key", "foobar")]))
    ∧ (∀ ext (v : String), v.data.contains ';' = false →
        parse_options_header ext v = some (v, [])) := by
  refine ⟨fun ext => rfl, fun ext => rfl, ?_⟩
  intro ext v h
  by_cases hv : v = ""
  · subst hv
    rfl
  · have hmem : ';' ∉ v.data := by simpa using h
    simp [parse_options_header, hv, hmem]

/-- Witness for the amended C6: the charset example and a parameterless
header, under a decoder that is never consulted. -/
theorem claimC6_amended_witness :
    parse_options_header (fun _ _ => none) "text/plain; charset=utf-8"
      = some ("text/plain", [("charset", "utf-8")])
    ∧ parse_options_header (fun _ _ => none) "text/plain"
      = some ("text/plain", []) :=
  ⟨claimC6_amended.1 (fun _ _ => none),
   claimC6_amended.2.2 (fun _ _ => none) "text/plain" rfl⟩

end AsgiTools
